import Mathlib

/-!
Shallow embedding of the `next-iamgeg` repository: four Next.js API route
handlers that turn query parameters into a PNG image via the external
`satori` (layout to SVG) and `@resvg/resvg-js` (SVG to PNG) libraries.

The handlers are embedded as pure functions over an explicit environment
(`Env`) that carries the external effects the code performs: reading font
files from disk and calling the two rendering libraries.  Everything the
repository itself computes (query-parameter normalization, the element
tree handed to `satori`, the `lines` payload decoding, the response
plumbing) is translated directly from the TypeScript source.
-/

namespace NextImage

/-- A JavaScript value as it can appear at the `parsedLines` variable of the
`lines` handler: the result of `JSON.parse`, plus `undef` for the result of
reading an absent property. -/
inductive JsVal : Type where
  | undefined : JsVal
  | null : JsVal
  | bool (b : Bool) : JsVal
  | num (q : Rat) : JsVal
  | str (s : String) : JsVal
  | arr (xs : List JsVal) : JsVal
  | obj (kvs : List (String × JsVal)) : JsVal

/-- Rational number with denominator 1, built without typeclass casts so that
everything reduces definitionally. -/
def ratOfNat (n : Nat) : Rat :=
  ⟨Int.ofNat n, 1, one_ne_zero, Nat.coprime_one_right _⟩

/-- Rational number from an integer, denominator 1. -/
def ratOfInt (n : Int) : Rat :=
  ⟨n, 1, one_ne_zero, Nat.coprime_one_right _⟩

/-- Strict positivity of a rational: since the denominator is always positive,
`0 < q` is equivalent to `0 < q.num`. -/
def ratPos (q : Rat) : Bool := decide (0 < q.num)

/-- Value of a base64 alphabet character, `none` for characters outside the
alphabet (Node ignores those when decoding). -/
def b64Val (c : Char) : Option Nat :=
  if 'A' ≤ c ∧ c ≤ 'Z' then some (c.toNat - 65)
  else if 'a' ≤ c ∧ c ≤ 'z' then some (c.toNat - 97 + 26)
  else if '0' ≤ c ∧ c ≤ '9' then some (c.toNat - 48 + 52)
  else if c = '+' then some 62
  else if c = '/' then some 63
  else none

/-- Reassemble a list of 6-bit groups into bytes, as base64 decoding does;
a dangling final group of one sextet is dropped. -/
def b64Chunks : List Nat → List Nat
  | a :: b :: c :: d :: rest =>
    (a * 4 + b / 16) :: (b % 16 * 16 + c / 4) :: (c % 4 * 64 + d) :: b64Chunks rest
  | [a, b, c] => [a * 4 + b / 16, b % 16 * 16 + c / 4]
  | [a, b] => [a * 4 + b / 16]
  | _ => []

/-- Lenient base64 decoding as performed by `Buffer.from(s, 'base64')`:
characters outside the base64 alphabet (including padding) are skipped, and
the remaining sextets are packed into bytes. -/
def b64Decode (s : String) : List Nat :=
  b64Chunks (s.toList.filterMap b64Val)

/-- True for a UTF-8 continuation byte. -/
def utf8Cont (b : Nat) : Bool := 128 ≤ b ∧ b < 192

/-- The U+FFFD replacement character, produced for invalid byte sequences as
`buffer.toString('utf-8')` does. -/
def replChar : Char := Char.ofNat 0xFFFD

/-- Decode a UTF-8 byte list into characters; `fuel` bounds the recursion and
is instantiated with the length of the list. -/
def utf8Aux : Nat → List Nat → List Char
  | 0, _ => []
  | _ + 1, [] => []
  | fuel + 1, b :: rest =>
    if b < 0x80 then Char.ofNat b :: utf8Aux fuel rest
    else if b < 0xC2 then replChar :: utf8Aux fuel rest
    else if b < 0xE0 then
      match rest with
      | b2 :: r2 =>
        if utf8Cont b2 then Char.ofNat ((b - 0xC0) * 64 + (b2 - 0x80)) :: utf8Aux fuel r2
        else replChar :: utf8Aux fuel rest
      | [] => [replChar]
    else if b < 0xF0 then
      match rest with
      | b2 :: b3 :: r3 =>
        if utf8Cont b2 ∧ utf8Cont b3 then
          Char.ofNat ((b - 0xE0) * 4096 + (b2 - 0x80) * 64 + (b3 - 0x80)) :: utf8Aux fuel r3
        else replChar :: utf8Aux fuel rest
      | _ => [replChar]
    else if b < 0xF5 then
      match rest with
      | b2 :: b3 :: b4 :: r4 =>
        if utf8Cont b2 ∧ utf8Cont b3 ∧ utf8Cont b4 then
          Char.ofNat ((b - 0xF0) * 262144 + (b2 - 0x80) * 4096 + (b3 - 0x80) * 64 + (b4 - 0x80))
            :: utf8Aux fuel r4
        else replChar :: utf8Aux fuel rest
      | _ => [replChar]
    else replChar :: utf8Aux fuel rest

/-- Decode a UTF-8 byte list into a string. -/
def utf8Decode (bs : List Nat) : String := String.mk (utf8Aux bs.length bs)

/-- The decoding the `lines` handler applies to its parameter before
`JSON.parse`: `Buffer.from(linesParam, 'base64').toString('utf-8')`. -/
def linesDecode (s : String) : String := utf8Decode (b64Decode s)

/-- Numeric value of a run of decimal digits. -/
def digitsToNat (ds : List Char) : Nat :=
  ds.foldl (fun a c => a * 10 + (c.toNat - 48)) 0

/-- JavaScript `parseInt(s, 10)`: skip leading whitespace, optional sign,
then the longest run of leading decimal digits; `none` models `NaN`. -/
def jsParseInt (s : String) : Option Int :=
  let cs := s.toList.dropWhile (fun c => c == ' ' || c == '\t' || c == '\n' || c == '\r')
  match cs with
  | '-' :: rest =>
    let ds := rest.takeWhile Char.isDigit
    if ds.isEmpty then none else some (-(Int.ofNat (digitsToNat ds)))
  | '+' :: rest =>
    let ds := rest.takeWhile Char.isDigit
    if ds.isEmpty then none else some (Int.ofNat (digitsToNat ds))
  | _ =>
    let ds := cs.takeWhile Char.isDigit
    if ds.isEmpty then none else some (Int.ofNat (digitsToNat ds))

/-- Opening curly brace character. -/
def lbrace : Char := Char.ofNat 123

/-- Closing curly brace character. -/
def rbrace : Char := Char.ofNat 125

/-- Skip JSON whitespace. -/
def skipWs (cs : List Char) : List Char :=
  cs.dropWhile (fun c => c == ' ' || c == '\t' || c == '\n' || c == '\r')

/-- Value of a hexadecimal digit. -/
def hexVal (c : Char) : Option Nat :=
  if '0' ≤ c ∧ c ≤ '9' then some (c.toNat - 48)
  else if 'a' ≤ c ∧ c ≤ 'f' then some (c.toNat - 97 + 10)
  else if 'A' ≤ c ∧ c ≤ 'F' then some (c.toNat - 65 + 10)
  else none

/-- Parse the remainder of a JSON string literal (the opening quote already
consumed), handling the escape sequences `JSON.parse` accepts. -/
def parseStrAux (acc : List Char) : List Char → Except Unit (String × List Char)
  | [] => .error ()
  | '"' :: rest => .ok (String.mk acc.reverse, rest)
  | '\\' :: rest =>
    match rest with
    | '"' :: t => parseStrAux ('"' :: acc) t
    | '\\' :: t => parseStrAux ('\\' :: acc) t
    | '/' :: t => parseStrAux ('/' :: acc) t
    | 'b' :: t => parseStrAux (Char.ofNat 8 :: acc) t
    | 'f' :: t => parseStrAux (Char.ofNat 12 :: acc) t
    | 'n' :: t => parseStrAux ('\n' :: acc) t
    | 'r' :: t => parseStrAux ('\r' :: acc) t
    | 't' :: t => parseStrAux ('\t' :: acc) t
    | 'u' :: h1 :: h2 :: h3 :: h4 :: t =>
      match hexVal h1, hexVal h2, hexVal h3, hexVal h4 with
      | some a, some b, some c, some d =>
        parseStrAux (Char.ofNat (a * 4096 + b * 256 + c * 16 + d) :: acc) t
      | _, _, _, _ => .error ()
    | _ => .error ()
  | c :: rest => parseStrAux (c :: acc) rest

/-- Negation of a rational, written out so it reduces definitionally. -/
def ratNeg (q : Rat) : Rat :=
  ⟨-q.num, q.den, q.den_nz, by rw [Int.natAbs_neg]; exact q.reduced⟩

/-- Parse a JSON number (integer part, optional fraction, optional exponent)
from the head of the character list. -/
def parseNum (cs : List Char) : Except Unit (JsVal × List Char) :=
  let (neg, cs1) := match cs with | '-' :: t => (true, t) | _ => (false, cs)
  let ds := cs1.takeWhile Char.isDigit
  if ds.isEmpty then .error () else
  let cs2 := cs1.drop ds.length
  let stepFrac : Except Unit (List Char × List Char) :=
    match cs2 with
    | '.' :: t =>
      let fds := t.takeWhile Char.isDigit
      if fds.isEmpty then .error () else .ok (fds, t.drop fds.length)
    | _ => .ok ([], cs2)
  match stepFrac with
  | .error e => .error e
  | .ok (fds, cs3) =>
    let stepExp : Except Unit (Int × List Char) :=
      match cs3 with
      | 'e' :: t | 'E' :: t =>
        let (eneg, t1) := match t with
          | '-' :: t2 => (true, t2)
          | '+' :: t2 => (false, t2)
          | _ => (false, t)
        let eds := t1.takeWhile Char.isDigit
        if eds.isEmpty then .error ()
        else
          let e := Int.ofNat (digitsToNat eds)
          .ok (if eneg then -e else e, t1.drop eds.length)
      | _ => .ok (0, cs3)
    match stepExp with
    | .error e => .error e
    | .ok (ex, cs4) =>
      let mant := Int.ofNat (digitsToNat (ds ++ fds))
      let mant := if neg then -mant else mant
      let q :=
        if 0 ≤ ex then mkRat (mant * Int.ofNat (10 ^ ex.toNat)) (10 ^ fds.length)
        else mkRat mant (10 ^ fds.length * 10 ^ (-ex).toNat)
      .ok (.num q, cs4)

/-- Recursive-descent JSON parser.  The second argument selects what is being
parsed: 0 a value, 1 array elements just after `[`, 2 a non-empty element
list, 3 object members just after the opening brace, 4 a non-empty member
list.  `fuel` bounds the recursion depth. -/
def parseF : Nat → Nat → List Char → Except Unit (JsVal × List Char)
  | 0, _, _ => .error ()
  | fuel + 1, 0, cs =>
    match skipWs cs with
    | 'n' :: 'u' :: 'l' :: 'l' :: rest => .ok (.null, rest)
    | 't' :: 'r' :: 'u' :: 'e' :: rest => .ok (.bool true, rest)
    | 'f' :: 'a' :: 'l' :: 's' :: 'e' :: rest => .ok (.bool false, rest)
    | '"' :: rest =>
      match parseStrAux [] rest with
      | .ok (s, r) => .ok (.str s, r)
      | .error e => .error e
    | '[' :: rest => parseF fuel 1 rest
    | c :: rest =>
      if c = lbrace then parseF fuel 3 rest
      else if c = '-' ∨ c.isDigit then parseNum (c :: rest)
      else .error ()
    | [] => .error ()
  | fuel + 1, 1, cs =>
    match skipWs cs with
    | ']' :: rest => .ok (.arr [], rest)
    | _ => parseF fuel 2 cs
  | fuel + 1, 2, cs => do
    let (v, r) ← parseF fuel 0 cs
    match skipWs r with
    | ',' :: r2 => do
      let (tail, r3) ← parseF fuel 2 r2
      match tail with
      | .arr vs => .ok (.arr (v :: vs), r3)
      | _ => .error ()
    | ']' :: r2 => .ok (.arr [v], r2)
    | _ => .error ()
  | fuel + 1, 3, cs =>
    match skipWs cs with
    | c :: rest => if c = rbrace then .ok (.obj [], rest) else parseF fuel 4 cs
    | [] => .error ()
  | fuel + 1, 4, cs =>
    match skipWs cs with
    | '"' :: rest => do
      let (k, r) ← parseStrAux [] rest
      match skipWs r with
      | ':' :: r2 => do
        let (v, r3) ← parseF fuel 0 r2
        match skipWs r3 with
        | ',' :: r4 => do
          let (tail, r5) ← parseF fuel 4 r4
          match tail with
          | .obj kvs => .ok (.obj ((k, v) :: kvs), r5)
          | _ => .error ()
        | c :: r4 => if c = rbrace then .ok (.obj [(k, v)], r4) else .error ()
        | [] => .error ()
      | _ => .error ()
    | _ => .error ()
  | _ + 1, _, _ => .error ()

/-- JavaScript `JSON.parse`: parse one value and require only whitespace to
remain.  A thrown `SyntaxError` is modelled as `.error ()`.  JSON numbers are
modelled as exact rationals. -/
def jsonParse (s : String) : Except Unit JsVal :=
  match parseF (4 * s.length + 8) 0 s.toList with
  | .ok (v, r) => if skipWs r = [] then .ok v else .error ()
  | .error e => .error e

/-- JavaScript `ToNumber` on a string, as used when a string is compared with
`>`: a trimmed empty string is 0, otherwise an optionally signed decimal
numeral (with optional fraction); anything else is `NaN` (`none`).  Hex and
exponent forms are not modelled. -/
def jsToNumber (s : String) : Option Rat :=
  let ws := fun (c : Char) => c == ' ' || c == '\t' || c == '\n' || c == '\r'
  let cs := (((s.toList.dropWhile ws).reverse).dropWhile ws).reverse
  let core : List Char → Option Rat := fun l =>
    let ds := l.takeWhile Char.isDigit
    let rest := l.drop ds.length
    match rest with
    | [] => if ds.isEmpty then none else some (ratOfNat (digitsToNat ds))
    | '.' :: f =>
      let fds := f.takeWhile Char.isDigit
      if f.drop fds.length ≠ [] then none
      else if ds.isEmpty ∧ fds.isEmpty then none
      else some (mkRat (Int.ofNat (digitsToNat (ds ++ fds))) (10 ^ fds.length))
    | _ => none
  match cs with
  | [] => some 0
  | '-' :: rest => (core rest).map ratNeg
  | '+' :: rest => core rest
  | rest => core rest

/-- JavaScript truthiness of `v > 0`, used for `parsedLines.length > 0`.
`undef` is `NaN > 0` (false); `null` coerces to 0; an array coerces through
its string form (only the singleton cases yield a number). -/
def jsGtZero : JsVal → Bool
  | .num q => ratPos q
  | .bool b => b
  | .str s => match jsToNumber s with | some q => ratPos q | none => false
  | .arr [.num q] => ratPos q
  | .arr [.str s] => match jsToNumber s with | some q => ratPos q | none => false
  | _ => false

/-- JavaScript property read `v[k]`, as an `Except` because reading a
property of `null` or `undefined` throws a `TypeError`.  Objects keep the
last duplicate key, as `JSON.parse` does; strings and arrays expose
`length`. -/
def getProp (v : JsVal) (k : String) : Except Unit JsVal :=
  match v with
  | .null => .error ()
  | .undefined => .error ()
  | .obj kvs => .ok ((kvs.reverse.lookup k).getD .undefined)
  | .str s => if k = "length" then .ok (.num (ratOfNat s.length)) else .ok .undefined
  | .arr xs => if k = "length" then .ok (.num (ratOfNat xs.length)) else .ok .undefined
  | _ => .ok .undefined

/-- A query-string value as Next.js delivers it: a single string, or an array
of strings for a repeated key. -/
inductive ParamVal : Type where
  | str (s : String) : ParamVal
  | arr (xs : List String) : ParamVal
deriving DecidableEq

/-- The query parameters the four route variants read.  An absent key is
`none`. -/
structure Query : Type where
  text : Option ParamVal := none
  bold : Option ParamVal := none
  thin : Option ParamVal := none
  black : Option ParamVal := none
  lines : Option ParamVal := none
  color : Option ParamVal := none
  width : Option ParamVal := none
  height : Option ParamVal := none
  fontSize : Option ParamVal := none

/-- The pattern `Array.isArray(v) ? v[0] : v` used by the extraction blocks:
take the first element of an array (undefined for an empty array), or the
plain string.  `none` models `undefined`. -/
def firstOf : Option ParamVal → Option String
  | none => none
  | some (.str s) => some s
  | some (.arr xs) => xs.head?

/-- The pattern `typeof p === 'string' ? p : d` applied after array-first
extraction: the string value, even when empty, else the default. -/
def strOr (p : Option ParamVal) (d : String) : String :=
  match firstOf p with
  | some s => s
  | none => d

/-- The pattern `typeof p === 'string' && p.length > 0 ? p : d` applied after
array-first extraction: a non-empty string value, else the default. -/
def strNonEmptyOr (p : Option ParamVal) (d : String) : String :=
  match firstOf p with
  | some s => if 0 < s.length then s else d
  | none => d

/-- A JavaScript number that may be `NaN` (modelled as `none`), the result of
`parseInt`. -/
abbrev JNum := Option Int

/-- The pattern `p ? parseInt(String(p), 10) : d` applied after array-first
extraction: parse a present non-empty string, else the documented default. -/
def numParam (p : Option ParamVal) (d : Int) : JNum :=
  match firstOf p with
  | some s => if 0 < s.length then jsParseInt s else some d
  | none => some d

/-- JavaScript truthiness of a raw query value: `undefined` and the empty
string are falsy, any array is truthy. -/
def pvTruthy : Option ParamVal → Bool
  | none => false
  | some (.str s) => 0 < s.length
  | some (.arr _) => true

/-- JavaScript `String(v)` on a raw query value: arrays join their elements
with commas. -/
def pvString : Option ParamVal → String
  | none => "undefined"
  | some (.str s) => s
  | some (.arr xs) => String.intercalate "," xs

/-- The `text`+`bold` variant parses numerics without array-first extraction:
`query.width ? parseInt(String(query.width), 10) : d`. -/
def numParamTB (p : Option ParamVal) (d : Int) : JNum :=
  if pvTruthy p then jsParseInt (pvString p) else some d

/-- The `text`+`bold` variant's color rule, applied to the raw value with no
array-first extraction: `typeof query.color === 'string' && query.color.length
> 0 ? query.color : '#000000'`; an array is not a string, so it falls to the
default. -/
def colorTB (p : Option ParamVal) : String :=
  match p with
  | some (.str s) => if 0 < s.length then s else "#000000"
  | _ => "#000000"

/-- The `text`+`bold` variant's text rule:
`Array.isArray(query.text) ? query.text[0] : query.text || 'Hello'`. -/
def textTB (p : Option ParamVal) : Option String :=
  match p with
  | some (.arr xs) => xs.head?
  | some (.str s) => some (if 0 < s.length then s else "Hello")
  | none => some "Hello"

/-- The `text`+`bold` variant's bold rule:
`Array.isArray(query.bold) ? query.bold[0] : query.bold || ''`. -/
def boldTB (p : Option ParamVal) : Option String :=
  match p with
  | some (.arr xs) => xs.head?
  | some (.str s) => some s
  | none => some ""

/-- The inline style properties the four variants set on their elements;
unset properties are `none`.  `fontSize` carries a JavaScript number that may
be `NaN`. -/
structure Style : Type where
  display : Option String := none
  flexDirection : Option String := none
  alignItems : Option String := none
  justifyContent : Option String := none
  width : Option String := none
  height : Option String := none
  backgroundColor : Option String := none
  fontFamily : Option String := none
  fontWeight : Option Nat := none
  fontSize : Option JNum := none
  color : Option String := none
  whiteSpace : Option String := none
  marginLeft : Option Nat := none

/-- The React element tree handed to `satori`: a styled tag with children, or
a literal JavaScript value used as a child (a text string, or a falsy value
such as `''` or `undefined`). -/
inductive Element : Type where
  | el (tag : String) (style : Style) (children : List Element) : Element
  | lit (v : JsVal) : Element

/-- A font entry of the `fonts` option passed to `satori`. -/
structure FontSpec : Type where
  name : String
  data : List Nat
  weight : Nat
  style : String

/-- The options object passed to `satori`. -/
structure SatoriOpts : Type where
  width : JNum
  height : JNum
  fonts : List FontSpec

/-- The external world of a request: the working directory, `fs.readFileSync`
(which throws when a font file is missing), and the two rendering libraries
`satori` and `Resvg.render().asPng()`, each of which may throw. -/
structure Env : Type where
  cwd : String
  readFile : String → Except Unit (List Nat)
  satori : Element → SatoriOpts → Except Unit String
  resvg : String → String → Except Unit (List Nat)

/-- The font path `path.join(process.cwd(), 'public', 'fonts', name)`. -/
def fontPath (cwd name : String) : String := cwd ++ "/public/fonts/" ++ name

/-- A response body: raw bytes from `res.send`, or a JSON text from
`res.json`. -/
inductive Body : Type where
  | bytes (data : List Nat) : Body
  | json (s : String) : Body
deriving DecidableEq

/-- An HTTP response: status, headers, body. -/
structure Response : Type where
  status : Nat
  headers : List (String × String)
  body : Body
deriving DecidableEq

/-- The success response every variant sends: status 200, the two headers set
by `res.setHeader`, and the PNG buffer. -/
def okPngResponse (png : List Nat) : Response :=
  ⟨200, [("Content-Type", "image/png"), ("Cache-Control", "no-store, max-age=0")], .bytes png⟩

/-- The failure response of the shared `catch` block:
`res.status(500).json(\x7b error: 'Failed to generate image' \x7d)`. -/
def errorResponse : Response :=
  ⟨500, [("Content-Type", "application/json")], .json "\x7b\"error\":\"Failed to generate image\"\x7d"⟩

/-- The `try`/`catch` boundary every variant wraps its body in: a produced
PNG becomes the 200 response, any thrown error becomes the uniform 500
response. -/
def respond (r : Except Unit (List Nat)) : Response :=
  match r with
  | .ok png => okPngResponse png
  | .error _ => errorResponse

/-- Sequence a possibly-throwing function over a list, as `Array.prototype.map`
does with a callback that may throw: elements are processed left to right and
the first exception aborts. -/
def exMap {α β : Type} (f : α → Except Unit β) : List α → Except Unit (List β)
  | [] => .ok []
  | a :: as =>
    match f a with
    | .error e => .error e
    | .ok b =>
      match exMap f as with
      | .error e => .error e
      | .ok bs => .ok (b :: bs)

/-- JavaScript strict equality of a value with a string literal, as in
`span.weight === 'black'`. -/
def isStrEq (v : JsVal) (s : String) : Bool :=
  match v with
  | .str t => t == s
  | _ => false

/-- Container style of the single-text variant (`part_000`): a flex box
centering its child on a transparent full-size canvas. -/
def textContainerStyle : Style :=
  { display := some "flex", alignItems := some "center", justifyContent := some "center",
    width := some "100%", height := some "100%", backgroundColor := some "transparent" }

/-- The single-text variant's span: weight 700, `whiteSpace: 'pre-wrap'`. -/
def textSpan (color : String) (fontSize : JNum) (text : String) : Element :=
  .el "span"
    { fontFamily := some "StabilGrotesk", fontWeight := some 700, color := some color,
      fontSize := some fontSize, whiteSpace := some "pre-wrap" }
    [.lit (.str text)]

/-- The element tree the single-text variant hands to `satori`. -/
def textElem (text color : String) (fontSize : JNum) : Element :=
  .el "div" textContainerStyle [textSpan color fontSize text]

/-- Body of the single-text variant (`part_000`) up to the PNG buffer; the
`try`/`catch` wrapper is `respond`. -/
def handlerTextTry (env : Env) (q : Query) : Except Unit (List Nat) := do
  let text := strNonEmptyOr q.text "Hello"
  let width := numParam q.width 1200
  let height := numParam q.height 630
  let color := strNonEmptyOr q.color "#000000"
  let fontSize := numParam q.fontSize 64
  let regularFontBuffer ← env.readFile (fontPath env.cwd "StabilGrotesk-Regular.ttf")
  let boldFontBuffer ← env.readFile (fontPath env.cwd "StabilGrotesk-Bold.ttf")
  let svg ← env.satori (textElem text color fontSize)
    ⟨width, height,
      [⟨"StabilGrotesk", regularFontBuffer, 400, "normal"⟩,
       ⟨"StabilGrotesk", boldFontBuffer, 700, "normal"⟩]⟩
  let png ← env.resvg svg "rgba(0,0,0,0)"
  pure png

/-- The single-text variant's handler (`part_000`). -/
def handlerText (env : Env) (q : Query) : Response :=
  respond (handlerTextTry env q)

/-- Container style of the `text`+`bold` variant: background `#eee`, and the
font size and color live on the container. -/
def textBoldContainerStyle (fontSize : JNum) (color : String) : Style :=
  { display := some "flex", alignItems := some "center", justifyContent := some "center",
    width := some "100%", height := some "100%", backgroundColor := some "#eee",
    fontSize := some fontSize, color := some color }

/-- The `text`+`bold` variant's regular span (weight 400); its content may be
`undefined` when the `text` parameter was an empty array. -/
def tbRegularSpan (text : Option String) : Element :=
  .el "span" { fontFamily := some "StabilGrotesk", fontWeight := some 400 }
    [.lit (match text with | some s => .str s | none => .undefined)]

/-- The `text`+`bold` variant's second child, `boldParam && <span .../>`:
the bold span when `boldParam` is truthy, otherwise the falsy value itself
(`''` or `undefined`). -/
def tbBoldChild (bold : Option String) : Element :=
  match bold with
  | some s =>
    if 0 < s.length then
      .el "span"
        { fontFamily := some "StabilGrotesk", fontWeight := some 700, marginLeft := some 10 }
        [.lit (.str s)]
    else .lit (.str s)
  | none => .lit .undefined

/-- The element tree the `text`+`bold` variant hands to `satori`. -/
def textBoldElem (text bold : Option String) (fontSize : JNum) (color : String) : Element :=
  .el "div" (textBoldContainerStyle fontSize color) [tbRegularSpan text, tbBoldChild bold]

/-- Body of the `text`+`bold` variant (first document of
`generate-image.ts`). -/
def handlerTextBoldTry (env : Env) (q : Query) : Except Unit (List Nat) := do
  let textParam := textTB q.text
  let boldParam := boldTB q.bold
  let width := numParamTB q.width 1200
  let height := numParamTB q.height 630
  let color := colorTB q.color
  let fontSize := numParamTB q.fontSize 64
  let regularFontBuffer ← env.readFile (fontPath env.cwd "StabilGrotesk-Regular.ttf")
  let boldFontBuffer ← env.readFile (fontPath env.cwd "StabilGrotesk-Bold.ttf")
  let svg ← env.satori (textBoldElem textParam boldParam fontSize color)
    ⟨width, height,
      [⟨"StabilGrotesk", regularFontBuffer, 400, "normal"⟩,
       ⟨"StabilGrotesk", boldFontBuffer, 700, "normal"⟩]⟩
  let png ← env.resvg svg "rgba(0,0,0,0)"
  pure png

/-- The `text`+`bold` variant's handler. -/
def handlerTextBold (env : Env) (q : Query) : Response :=
  respond (handlerTextBoldTry env q)

/-- Container style of the stacked `thin`+`black` variant (`part_001`): a
column flex box centering its children. -/
def thinBlackContainerStyle : Style :=
  { display := some "flex", flexDirection := some "column", alignItems := some "center",
    justifyContent := some "center", width := some "100%", height := some "100%",
    backgroundColor := some "transparent" }

/-- A span of the stacked `thin`+`black` variant (no `whiteSpace`). -/
def thinBlackSpan (weight : Nat) (color : String) (fontSize : JNum) (text : String) : Element :=
  .el "span"
    { fontFamily := some "StabilGrotesk", fontWeight := some weight, color := some color,
      fontSize := some fontSize }
    [.lit (.str text)]

/-- Body of the stacked `thin`+`black` variant (`part_001`). -/
def handlerThinBlackTry (env : Env) (q : Query) : Except Unit (List Nat) := do
  let thinText := strOr q.thin ""
  let blackText := strOr q.black ""
  let color := strOr q.color "#000000"
  let width := numParam q.width 1200
  let height := numParam q.height 630
  let fontSize := numParam q.fontSize 64
  let thinFontBuffer ← env.readFile (fontPath env.cwd "StabilGrotesk-Thin.ttf")
  let blackFontBuffer ← env.readFile (fontPath env.cwd "StabilGrotesk-Black.ttf")
  let svg ← env.satori
    (.el "div" thinBlackContainerStyle
      [thinBlackSpan 100 color fontSize thinText, thinBlackSpan 900 color fontSize blackText])
    ⟨width, height,
      [⟨"StabilGrotesk", thinFontBuffer, 100, "normal"⟩,
       ⟨"StabilGrotesk", blackFontBuffer, 900, "normal"⟩]⟩
  let png ← env.resvg svg "rgba(0,0,0,0)"
  pure png

/-- The stacked `thin`+`black` variant's handler (`part_001`). -/
def handlerThinBlack (env : Env) (q : Query) : Response :=
  respond (handlerThinBlackTry env q)

/-- Style of a span of the `lines` variant: resolved weight, font size,
color, `whiteSpace: 'pre'`. -/
def linesSpanStyle (weight : Nat) (fontSize : JNum) (color : String) : Style :=
  { fontFamily := some "StabilGrotesk", fontWeight := some weight, fontSize := some fontSize,
    color := some color, whiteSpace := some "pre" }

/-- Render one span of the structured payload:
`fontWeight: span.weight === 'black' ? 900 : 100`, child `span.text`.
Property reads throw on `null`. -/
def renderSpan (fontSize : JNum) (color : String) (span : JsVal) : Except Unit Element := do
  let wv ← getProp span "weight"
  let tv ← getProp span "text"
  pure (.el "span" (linesSpanStyle (if isStrEq wv "black" then 900 else 100) fontSize color)
    [.lit tv])

/-- Style of a row of the structured payload: a centered, baseline-aligned
flex row. -/
def rowStyle : Style :=
  { display := some "flex", flexDirection := some "row", justifyContent := some "center",
    alignItems := some "baseline" }

/-- Render one row of the structured payload: `line.map(span => ...)` inside
a row `div`; a non-array row has no `.map` and throws. -/
def renderRow (fontSize : JNum) (color : String) (line : JsVal) : Except Unit Element :=
  match line with
  | .arr spans => do
    let es ← exMap (renderSpan fontSize color) spans
    pure (.el "div" rowStyle es)
  | _ => .error ()

/-- `parsedLines.map(line => ...)`: a non-array value has no `.map` and
throws. -/
def mapRows (fontSize : JNum) (color : String) : JsVal → Except Unit (List Element)
  | .arr rows => exMap (renderRow fontSize color) rows
  | _ => .error ()

/-- The fallback children of the `lines` variant: a thin (weight 100) span
and a black (weight 900) span, each with `whiteSpace: 'pre'`. -/
def fallbackSpans (fontSize : JNum) (color : String) (thinText blackText : String) :
    List Element :=
  [.el "span" (linesSpanStyle 100 fontSize color) [.lit (.str thinText)],
   .el "span" (linesSpanStyle 900 fontSize color) [.lit (.str blackText)]]

/-- The child list of the `lines` variant's container:
`parsedLines.length > 0 ? parsedLines.map(...) : [thin span, black span]`. -/
def buildLinesChildren (parsed : JsVal) (fontSize : JNum) (color : String)
    (thinText blackText : String) : Except Unit (List Element) := do
  let len ← getProp parsed "length"
  if jsGtZero len then mapRows fontSize color parsed
  else pure (fallbackSpans fontSize color thinText blackText)

/-- Container style of the `lines` variant: a column flex box centering its
children on a transparent full-size canvas. -/
def linesContainerStyle : Style :=
  { display := some "flex", flexDirection := some "column", justifyContent := some "center",
    alignItems := some "center", width := some "100%", height := some "100%",
    backgroundColor := some "transparent" }

/-- The `parsedLines` computation of the `lines` variant: `[]` when the
parameter is absent or empty, otherwise base64-then-UTF-8 decode and
`JSON.parse` (whose failure propagates). -/
def parsedLinesOf (p : Option ParamVal) : Except Unit JsVal :=
  match firstOf p with
  | some s => if 0 < s.length then jsonParse (linesDecode s) else .ok (.arr [])
  | none => .ok (.arr [])

/-- Body of the `lines` variant (second document of `generate-image.ts`). -/
def handlerLinesTry (env : Env) (q : Query) : Except Unit (List Nat) := do
  let thinText := strOr q.thin ""
  let blackText := strOr q.black ""
  let color := strOr q.color "#000000"
  let width := numParam q.width 1200
  let height := numParam q.height 630
  let fontSize := numParam q.fontSize 64
  let thinFontBuffer ← env.readFile (fontPath env.cwd "StabilGrotesk-Thin.ttf")
  let blackFontBuffer ← env.readFile (fontPath env.cwd "StabilGrotesk-Black.ttf")
  let parsedLines ← parsedLinesOf q.lines
  let children ← buildLinesChildren parsedLines fontSize color thinText blackText
  let svg ← env.satori (.el "div" linesContainerStyle children)
    ⟨width, height,
      [⟨"StabilGrotesk", thinFontBuffer, 100, "normal"⟩,
       ⟨"StabilGrotesk", blackFontBuffer, 900, "normal"⟩]⟩
  let png ← env.resvg svg "rgba(0,0,0,0)"
  pure png

/-- The `lines` variant's handler. -/
def handlerLines (env : Env) (q : Query) : Response :=
  respond (handlerLinesTry env q)

/-- The query with every optional parameter omitted. -/
def emptyQuery : Query := {}

/-- An environment in which every external call succeeds with a fixed value:
font reads return an empty buffer, `satori` returns a fixed SVG text, and
`resvg` returns a fixed PNG buffer. -/
def env0 : Env :=
  ⟨"", fun _ => .ok [], fun _ _ => .ok "svg", fun _ _ => .ok [137, 80]⟩

/-- Bytes of a string, used by probe environments to surface an observed
string in the response body. -/
def strBytes (s : String) : List Nat := s.toList.map Char.toNat

/-- The `color` style property of an element, or `"none"`. -/
def elemColor : Element → String
  | .el _ st _ => st.color.getD "none"
  | .lit _ => "none"

/-- The `color` style property of an element's first child, or `"none"`. -/
def firstChildColor : Element → String
  | .el _ _ (c :: _) => elemColor c
  | _ => "none"

/-- A probe environment whose `satori` reports the color of the first span of
the element tree it receives, so that the color reaching the rendering stage
is visible in the response body. -/
def envSpanColorProbe : Env :=
  ⟨"", fun _ => .ok [], fun e _ => .ok (firstChildColor e), fun s _ => .ok (strBytes s)⟩

/-- A probe environment whose `satori` reports the color of the container
element it receives. -/
def envDivColorProbe : Env :=
  ⟨"", fun _ => .ok [], fun e _ => .ok (elemColor e), fun s _ => .ok (strBytes s)⟩

/-- The JSON value of one structured span `\x7b text, weight \x7d`, for
stating properties about well-shaped payloads. -/
def encSpan (t w : String) : JsVal := .obj [("text", .str t), ("weight", .str w)]

/-- The JSON value of one structured row: an array of spans. -/
def encRow (row : List (String × String)) : JsVal :=
  .arr (row.map (fun p => encSpan p.1 p.2))

/-- The JSON value of a structured `lines` payload: an array of rows. -/
def encLines (rows : List (List (String × String))) : JsVal :=
  .arr (rows.map encRow)

/-- The span element produced for a well-shaped structured span with text `t`
and weight tag `w`. -/
def spanElem (fontSize : JNum) (color : String) (t w : String) : Element :=
  .el "span" (linesSpanStyle (if w == "black" then 900 else 100) fontSize color)
    [.lit (.str t)]

/-- Binding a successful `Except` computation just applies the
continuation. -/
@[simp] theorem okBind {α β : Type} (a : α) (f : α → Except Unit β) :
    (Except.ok a >>= f) = f a := rfl

/-- Binding a failed `Except` computation propagates the failure. -/
@[simp] theorem errorBind {α β : Type} (e : Unit) (f : α → Except Unit β) :
    ((Except.error e : Except Unit α) >>= f) = .error e := rfl

/-- The `try`/`catch` boundary yields exactly the success response or exactly
the uniform error response. -/
theorem respond_cases (r : Except Unit (List Nat)) :
    (∃ b, respond r = okPngResponse b) ∨ respond r = errorResponse := by
  cases r with
  | ok b => exact Or.inl ⟨b, rfl⟩
  | error e => exact Or.inr rfl

/-- C1: every request to any of the four handler variants is answered either
with HTTP 200, headers `Content-Type: image/png` and `Cache-Control:
no-store, max-age=0`, and the raw PNG bytes as body, or with HTTP 500 and
the JSON body `\x7b"error":"Failed to generate image"\x7d`; all failures are
caught at the single `try`/`catch` boundary (`respond`), so no partial image
is returned and error kinds are indistinguishable to the client. -/
theorem claim_c1 (env : Env) (q : Query) :
    ((∃ b, handlerText env q = okPngResponse b) ∨ handlerText env q = errorResponse) ∧
    ((∃ b, handlerTextBold env q = okPngResponse b) ∨ handlerTextBold env q = errorResponse) ∧
    ((∃ b, handlerThinBlack env q = okPngResponse b) ∨ handlerThinBlack env q = errorResponse) ∧
    ((∃ b, handlerLines env q = okPngResponse b) ∨ handlerLines env q = errorResponse) ∧
    (∀ b, (okPngResponse b).status = 200 ∧
      (okPngResponse b).headers =
        [("Content-Type", "image/png"), ("Cache-Control", "no-store, max-age=0")] ∧
      (okPngResponse b).body = .bytes b) ∧
    errorResponse.status = 500 ∧
    errorResponse.body = .json "\x7b\"error\":\"Failed to generate image\"\x7d" :=
  ⟨respond_cases _, respond_cases _, respond_cases _, respond_cases _,
   fun _ => ⟨rfl, rfl, rfl⟩, rfl, rfl⟩

/-- C2 (counterexample): the claim demands a 500 response whenever a present
`lines` value does not match the expected row/span shape, but the value
`"e30="` — valid base64 of `"\x7b\x7d"`, which parses to a JSON object, not
an array of rows — makes the handler silently fall back to the flat
parameters and answer 200 in an environment where rendering succeeds. -/
theorem claim_c2_counterexample :
    jsonParse (linesDecode "e30=") = .ok (.obj []) ∧
    handlerLines env0 { lines := some (.str "e30=") } = okPngResponse [137, 80] ∧
    (okPngResponse [137, 80]).status = 200 :=
  ⟨rfl, rfl, rfl⟩

/-- C2 (amended): if the `lines` parameter is present and non-empty and its
base64-then-UTF-8 decoding fails to parse as JSON, the handler fails the
request with the uniform 500 error response; but a value that parses to JSON
without a positive `length` property (such as an object or a number) silently
falls back to the flat thin/black parameters and can produce a 200
response. -/
theorem claim_c2 (env : Env) (q : Query) (s : String)
    (hs : firstOf q.lines = some s) (hne : 0 < s.length)
    (hp : jsonParse (linesDecode s) = .error ()) :
    handlerLines env q = errorResponse := by
  have hpl : parsedLinesOf q.lines = .error () := by
    unfold parsedLinesOf
    rw [hs]
    simp [hne, hp]
  unfold handlerLines handlerLinesTry
  cases h1 : env.readFile (fontPath env.cwd "StabilGrotesk-Thin.ttf")
  all_goals cases h2 : env.readFile (fontPath env.cwd "StabilGrotesk-Black.ttf")
  all_goals simp [h1, h2, hpl, respond]

/-- Closed instance of `claim_c2`: the value `"!!!"` decodes to the empty
string, which `JSON.parse` rejects, so the request fails with the 500
response. -/
theorem claim_c2_witness :
    handlerLines env0 { lines := some (.str "!!!") } = errorResponse :=
  claim_c2 env0 { lines := some (.str "!!!") } "!!!" rfl (by decide) rfl

/-- Behavior of the shared numeric-parameter rule: a present non-empty raw
string is handed to `parseInt(·, 10)` unchanged, an absent or empty one
yields the default. -/
theorem numParam_spec (p : Option ParamVal) (d : Int) (s : String) :
    (firstOf p = some s → 0 < s.length → numParam p d = jsParseInt s) ∧
    ((firstOf p = none ∨ firstOf p = some "") → numParam p d = some d) := by
  constructor
  · intro h1 h2
    unfold numParam
    rw [h1]
    simp [h2]
  · rintro (h1 | h1) <;> simp [numParam, h1]

/-- C3: for each of `width`, `height` and `fontSize`, a present non-empty raw
string is parsed with base-10 `parseInt` (no range validation or clamping
anywhere in `numParam` or `jsParseInt`), and an absent or empty one yields
the documented defaults 1200, 630 and 64 respectively — exactly the
`numParam` rule the single-text and `lines` handlers apply to these
fields. -/
theorem claim_c3 (q : Query) (s : String) :
    (firstOf q.width = some s → 0 < s.length → numParam q.width 1200 = jsParseInt s) ∧
    ((firstOf q.width = none ∨ firstOf q.width = some "") → numParam q.width 1200 = some 1200) ∧
    (firstOf q.height = some s → 0 < s.length → numParam q.height 630 = jsParseInt s) ∧
    ((firstOf q.height = none ∨ firstOf q.height = some "") → numParam q.height 630 = some 630) ∧
    (firstOf q.fontSize = some s → 0 < s.length → numParam q.fontSize 64 = jsParseInt s) ∧
    ((firstOf q.fontSize = none ∨ firstOf q.fontSize = some "") → numParam q.fontSize 64 = some 64) :=
  ⟨(numParam_spec _ _ s).1, (numParam_spec _ _ s).2,
   (numParam_spec _ _ s).1, (numParam_spec _ _ s).2,
   (numParam_spec _ _ s).1, (numParam_spec _ _ s).2⟩

/-- Closed instance of `claim_c3`: `width=800` parses to 800 and an absent
`fontSize` defaults to 64. -/
theorem claim_c3_witness :
    numParam (Query.width { width := some (.str "800") }) 1200 = jsParseInt "800" ∧
    numParam (Query.fontSize {}) 64 = some 64 :=
  ⟨(claim_c3 { width := some (.str "800") } "800").1 rfl (by decide),
   (claim_c3 {} "").2.2.2.2.2 (Or.inl rfl)⟩

/-- Mapping a possibly-throwing function over a mapped list succeeds
pointwise. -/
theorem exMap_map_ok {α β γ : Type} (f : β → Except Unit γ) (g : α → β) (h : α → γ)
    (H : ∀ a, f (g a) = .ok (h a)) : ∀ l : List α, exMap f (l.map g) = .ok (l.map h) := by
  intro l
  induction l with
  | nil => rfl
  | cons a as ih => simp [exMap, H a, ih]

/-- A well-shaped structured span renders to its span element. -/
theorem renderSpan_enc (fontSize : JNum) (color : String) (p : String × String) :
    renderSpan fontSize color (encSpan p.1 p.2) = .ok (spanElem fontSize color p.1 p.2) := rfl

/-- A well-shaped structured row renders to a row `div` whose children are
the span elements in payload order. -/
theorem renderRow_enc (fontSize : JNum) (color : String) (row : List (String × String)) :
    renderRow fontSize color (encRow row) =
      .ok (.el "div" rowStyle (row.map (fun p => spanElem fontSize color p.1 p.2))) := by
  have h := exMap_map_ok (renderSpan fontSize color) (fun p => encSpan p.1 p.2)
    (fun p => spanElem fontSize color p.1 p.2) (renderSpan_enc fontSize color) row
  simp [renderRow, encRow, h]

/-- C4: a successfully decoded, well-shaped, non-empty `lines` payload is
rendered row by row — each row a `div` with `display: flex`,
`flexDirection: 'row'`, `justifyContent: 'center'` (horizontal centering)
and `alignItems: 'baseline'`, whose span children appear in payload order
left to right — with a `"thin"` span at numeric weight 100 and a `"black"`
span at numeric weight 900; the produced children do not mention the flat
thin/black texts, so the non-empty payload takes priority over them. -/
theorem claim_c4 (rows : List (List (String × String))) (fontSize : JNum)
    (color thinText blackText : String) (hne : rows ≠ []) :
    buildLinesChildren (encLines rows) fontSize color thinText blackText =
      .ok (rows.map (fun row =>
        .el "div" rowStyle (row.map (fun p => spanElem fontSize color p.1 p.2)))) ∧
    rowStyle.display = some "flex" ∧
    rowStyle.flexDirection = some "row" ∧
    rowStyle.justifyContent = some "center" ∧
    rowStyle.alignItems = some "baseline" ∧
    (∀ t, spanElem fontSize color t "thin" =
      .el "span" (linesSpanStyle 100 fontSize color) [.lit (.str t)]) ∧
    (∀ t, spanElem fontSize color t "black" =
      .el "span" (linesSpanStyle 900 fontSize color) [.lit (.str t)]) := by
  refine ⟨?_, rfl, rfl, rfl, rfl, fun t => rfl, fun t => rfl⟩
  have hlen : getProp (encLines rows) "length" =
      .ok (.num (ratOfNat (rows.map encRow).length)) := rfl
  have hpos : jsGtZero (.num (ratOfNat (rows.map encRow).length)) = true := by
    simp only [jsGtZero, ratPos, ratOfNat, List.length_map, decide_eq_true_eq]
    exact Int.ofNat_pos.mpr (List.length_pos.mpr hne)
  unfold buildLinesChildren
  rw [hlen]
  simp only [okBind, hpos, if_true]
  unfold mapRows encLines
  exact exMap_map_ok (renderRow fontSize color) encRow
    (fun row => .el "div" rowStyle (row.map (fun p => spanElem fontSize color p.1 p.2)))
    (renderRow_enc fontSize color) rows

/-- Closed instance of `claim_c4`: the spec's example row
`[\x7btext:"Hi", weight:"thin"\x7d, \x7btext:"There", weight:"black"\x7d]`
renders as one centered baseline row holding the two spans at weights 100 and
900, in order. -/
theorem claim_c4_witness :
    buildLinesChildren (encLines [[("Hi", "thin"), ("There", "black")]])
        (some 64) "#000000" "t" "b" =
      .ok [.el "div" rowStyle
        [.el "span" (linesSpanStyle 100 (some 64) "#000000") [.lit (.str "Hi")],
         .el "span" (linesSpanStyle 900 (some 64) "#000000") [.lit (.str "There")]]] :=
  (claim_c4 [[("Hi", "thin"), ("There", "black")]] (some 64) "#000000" "t" "b"
    (by simp)).1

/-- C5 (counterexample): the claim says an empty `color` string always falls
back to the variant default, but the `lines` (and stacked thin/black)
variants test only `typeof colorParam === 'string'`, so `color=` (the empty
string) is passed through verbatim to the rendering stage: the probe
environment observes the span color `""` rather than the default
`"#000000"`. -/
theorem claim_c5_counterexample :
    strOr (some (.str "")) "#000000" = "" ∧
    handlerLines envSpanColorProbe { color := some (.str "") } = okPngResponse (strBytes "") ∧
    handlerLines envSpanColorProbe {} = okPngResponse (strBytes "#000000") ∧
    strBytes "" = [] ∧
    strBytes "#000000" = [35, 48, 48, 48, 48, 48, 48] :=
  ⟨rfl, rfl, rfl, rfl, rfl⟩

/-- C5 (amended): every non-empty `color` string is passed through verbatim
and uninterpreted in all variants; an absent `color` yields the fixed default
in all variants; an empty string, however, yields the default only under the
single-text variant's rule (`strNonEmptyOr`), while the `lines` and stacked
thin/black variants' rule (`strOr`) passes the empty string through. -/
theorem claim_c5 (p : Option ParamVal) (s : String) :
    (firstOf p = some s → 0 < s.length →
      strOr p "#000000" = s ∧ strNonEmptyOr p "#000000" = s) ∧
    (firstOf p = none →
      strOr p "#000000" = "#000000" ∧ strNonEmptyOr p "#000000" = "#000000") ∧
    (firstOf p = some "" →
      strOr p "#000000" = "" ∧ strNonEmptyOr p "#000000" = "#000000") := by
  refine ⟨fun h1 h2 => ?_, fun h1 => ?_, fun h1 => ?_⟩
  · exact ⟨by simp [strOr, h1], by simp [strNonEmptyOr, h1, h2]⟩
  · exact ⟨by simp [strOr, h1], by simp [strNonEmptyOr, h1]⟩
  · exact ⟨by simp [strOr, h1], by simp [strNonEmptyOr, h1]⟩

/-- Closed instance of `claim_c5`: a non-empty color value is passed through
verbatim by both rules. -/
theorem claim_c5_witness :
    strOr (some (.str "#ff00aa")) "#000000" = "#ff00aa" ∧
    strNonEmptyOr (some (.str "#ff00aa")) "#000000" = "#ff00aa" :=
  (claim_c5 (some (.str "#ff00aa")) "#ff00aa").1 rfl (by decide)

/-- C6 (counterexample): the claim says every variant takes the first element
of an array-valued parameter, but the `text`+`bold` variant's `color` rule
checks `typeof query.color === 'string'` on the raw value, so
`color=["#ff0000"]` is treated as absent and the default `#000000` is used —
the probe environment observes the container color `"#000000"`, not the first
element `"#ff0000"`. -/
theorem claim_c6_counterexample :
    colorTB (some (.arr ["#ff0000"])) = "#000000" ∧
    handlerTextBold envDivColorProbe { color := some (.arr ["#ff0000"]) } =
      okPngResponse (strBytes "#000000") ∧
    strBytes "#000000" = [35, 48, 48, 48, 48, 48, 48] ∧
    strBytes "#ff0000" = [35, 102, 102, 48, 48, 48, 48] :=
  ⟨rfl, rfl, rfl, rfl⟩

/-- C6 (amended): the array-first extraction `firstOf` — used for every
parameter of the single-text, stacked thin/black and `lines` variants, and
for `text` and `bold` of the `text`+`bold` variant — uses the first element
of an array; but in the `text`+`bold` variant, an array-valued `color` falls
back to the default, and array-valued `width`/`height`/`fontSize` are
stringified whole (elements joined by commas) before `parseInt`. -/
theorem claim_c6 (s : String) (xs : List String) (d : Int) :
    firstOf (some (.arr (s :: xs))) = some s ∧
    textTB (some (.arr (s :: xs))) = some s ∧
    boldTB (some (.arr (s :: xs))) = some s ∧
    colorTB (some (.arr (s :: xs))) = "#000000" ∧
    numParamTB (some (.arr (s :: xs))) d =
      jsParseInt (String.intercalate "," (s :: xs)) :=
  ⟨rfl, rfl, rfl, rfl, rfl⟩

/-- C7: a request that omits every optional parameter errors nowhere in the
handler itself and renders with the documented defaults — the single-text
variant lays out the text `"Hello"` at font size 64 in color `#000000` on a
1200×630 canvas, and the `lines` variant uses the same numeric and color
defaults with its empty-text fallback spans — provided the font reads and
the two external renderers succeed. -/
theorem claim_c7 (env : Env) (rb bb tb kb : List Nat) (svg1 svg2 : String)
    (png1 png2 : List Nat)
    (h1 : env.readFile (fontPath env.cwd "StabilGrotesk-Regular.ttf") = .ok rb)
    (h2 : env.readFile (fontPath env.cwd "StabilGrotesk-Bold.ttf") = .ok bb)
    (h3 : env.satori (textElem "Hello" "#000000" (some 64))
      ⟨some 1200, some 630,
        [⟨"StabilGrotesk", rb, 400, "normal"⟩, ⟨"StabilGrotesk", bb, 700, "normal"⟩]⟩ = .ok svg1)
    (h4 : env.resvg svg1 "rgba(0,0,0,0)" = .ok png1)
    (h5 : env.readFile (fontPath env.cwd "StabilGrotesk-Thin.ttf") = .ok tb)
    (h6 : env.readFile (fontPath env.cwd "StabilGrotesk-Black.ttf") = .ok kb)
    (h7 : env.satori (.el "div" linesContainerStyle (fallbackSpans (some 64) "#000000" "" ""))
      ⟨some 1200, some 630,
        [⟨"StabilGrotesk", tb, 100, "normal"⟩, ⟨"StabilGrotesk", kb, 900, "normal"⟩]⟩ = .ok svg2)
    (h8 : env.resvg svg2 "rgba(0,0,0,0)" = .ok png2) :
    handlerText env emptyQuery = okPngResponse png1 ∧
    handlerLines env emptyQuery = okPngResponse png2 := by
  constructor
  · unfold handlerText handlerTextTry
    simp [emptyQuery, strNonEmptyOr, numParam, firstOf, h1, h2, h3, h4, respond]
  · unfold handlerLines handlerLinesTry
    simp [emptyQuery, strOr, numParam, firstOf, parsedLinesOf, buildLinesChildren, getProp,
      jsGtZero, ratPos, ratOfNat, h5, h6, h7, h8, respond]

/-- Closed instance of `claim_c7`: in the all-success environment `env0` both
handlers answer 200 with the rendered buffer on the empty query. -/
theorem claim_c7_witness :
    handlerText env0 emptyQuery = okPngResponse [137, 80] ∧
    handlerLines env0 emptyQuery = okPngResponse [137, 80] :=
  claim_c7 env0 [] [] [] [] "svg" "svg" [137, 80] [137, 80]
    rfl rfl rfl rfl rfl rfl rfl rfl

/-- C8: each handler is a pure function of the request environment (the font
files and the two deterministic rendering libraries) and the query: the
embedding threads every external effect through `Env`, and two requests with
equal query parameters produce identical responses, byte for byte. -/
theorem claim_c8 (env : Env) (q1 q2 : Query) (h : q1 = q2) :
    handlerText env q1 = handlerText env q2 ∧
    handlerTextBold env q1 = handlerTextBold env q2 ∧
    handlerThinBlack env q1 = handlerThinBlack env q2 ∧
    handlerLines env q1 = handlerLines env q2 := by
  subst h
  exact ⟨rfl, rfl, rfl, rfl⟩

/-- Closed instance of `claim_c8` at a concrete query with a `lines`
payload. -/
theorem claim_c8_witness :
    handlerLines env0 { lines := some (.str "W10="), color := some (.str "#abc") } =
      handlerLines env0 { lines := some (.str "W10="), color := some (.str "#abc") } :=
  (claim_c8 env0 { lines := some (.str "W10="), color := some (.str "#abc") }
    { lines := some (.str "W10="), color := some (.str "#abc") } rfl).2.2.2

/-- C9: a structured span whose weight tag is any string other than exactly
`"black"` — `"thin"`, `"regular"`, `"bold"`, a misspelling — renders without
error at numeric font weight 100, since the code computes
`span.weight === 'black' ? 900 : 100`. -/
theorem claim_c9 (fontSize : JNum) (color : String) (t w : String) (hw : w ≠ "black") :
    renderSpan fontSize color (encSpan t w) =
      .ok (.el "span" (linesSpanStyle 100 fontSize color) [.lit (.str t)]) := by
  rw [renderSpan_enc fontSize color (t, w)]
  unfold spanElem
  rw [show (w == "black") = false from beq_eq_false_iff_ne.mpr hw]
  rfl

/-- Closed instance of `claim_c9` at the unrecognized tag `"bold"`. -/
theorem claim_c9_witness :
    renderSpan (some 64) "#000000" (encSpan "Hi" "bold") =
      .ok (.el "span" (linesSpanStyle 100 (some 64) "#000000") [.lit (.str "Hi")]) :=
  claim_c9 (some 64) "#000000" "Hi" "bold" (by decide)

/-- C10: when the `lines` parameter decodes and parses to the empty JSON
array, `parsedLines.length > 0` is false and the handler renders the two-span
stacked thin/black fallback — the response is identical to the one for the
same query without a `lines` parameter. -/
theorem claim_c10 (env : Env) (q : Query) (s : String)
    (hs : firstOf q.lines = some s) (hne : 0 < s.length)
    (hp : jsonParse (linesDecode s) = .ok (.arr [])) :
    handlerLines env q = handlerLines env { q with lines := none } ∧
    (∀ fontSize color thinText blackText,
      buildLinesChildren (.arr []) fontSize color thinText blackText =
        .ok (fallbackSpans fontSize color thinText blackText)) := by
  constructor
  · have h1 : parsedLinesOf q.lines = .ok (.arr []) := by
      unfold parsedLinesOf
      rw [hs]
      simp [hne, hp]
    unfold handlerLines handlerLinesTry
    rw [h1]
    simp [parsedLinesOf, firstOf]
  · intro fontSize color thinText blackText
    rfl

/-- Closed instance of `claim_c10`: `lines=W10%3D` (base64 of `"[]"`) yields
the same response as omitting `lines`. -/
theorem claim_c10_witness :
    handlerLines env0 { lines := some (.str "W10=") } =
      handlerLines env0 { lines := none } :=
  (claim_c10 env0 { lines := some (.str "W10=") } "W10=" rfl (by decide) rfl).1

end NextImage
